import Mathlib

/-!
Shallow embedding of the stimpl interpreter (`stimpl/runtime.py`): the
persistent environment chain (`State` / `EmptyState`) and the recursive
`evaluate` dispatcher, together with theorems checking the specified
behaviour of each construct.

Modelling conventions:
* Python runtime values are `Val` (integers as `Int`, floating point as `Rat`
  — the examples the spec uses are exactly representable — strings as
  `String`, booleans as `Bool`).  The Python value slot is `Optional`, with
  `None` for the unit value, so the embedding uses `Option Val`.
* The two interpreter error classes `InterpSyntaxError` / `InterpTypeError`
  become `EvalError.synFault` / `EvalError.tyFault`; their human-readable
  message strings are elided.  An uncaught host-level exception (Python's
  `ZeroDivisionError` from `/` and `//`, or an operator applied to a payload
  that does not match its type tag — unreachable for results produced by the
  evaluator itself) is `EvalError.hostFault`.
* Python's unbounded `while` loop is embedded with a fuel parameter that every
  recursive call consumes; exhausted fuel yields the artificial
  `EvalError.fuelOut`, which corresponds to no behaviour of the source and
  never appears for terminating runs given enough fuel.
-/

namespace Stimpl

/-- The runtime type tags (`stimpl.types`): `Unit`, `Integer`,
`FloatingPoint`, `String`, `Boolean`.  Equality is tag equality. -/
inductive Ty where
  | Unit
  | Integer
  | FloatingPoint
  | String
  | Boolean
deriving DecidableEq, Repr

/-- A non-unit runtime value.  The unit value is the absence of a `Val`
(`none`), matching Python's `None`. -/
inductive Val where
  | VInt (n : Int)
  | VFloat (q : Rat)
  | VStr (s : String)
  | VBool (b : Bool)
deriving DecidableEq, Repr

/-- The environment chain: `State(variable_name, value, type, next_state)`
nodes ending in `EmptyState`.  (`runtime.py` lines 12–52.) -/
inductive SState where
  | emptyState
  | state (variable_name : String) (value : Option Val) (ty : Ty) (next_state : SState)
deriving DecidableEq, Repr

/-- `State.set_value`: a new head node whose tail is the receiver; never
touches existing nodes. -/
def SState.set_value (s : SState) (variable_name : String) (value : Option Val)
    (ty : Ty) : SState :=
  SState.state variable_name value ty s

/-- `State.get_value`: scan head-to-tail, return the first binding whose name
matches, or `none` on reaching `EmptyState`. -/
def SState.get_value : SState → String → Option (Option Val × Ty)
  | .emptyState, _ => none
  | .state n v t next, name => if n = name then some (v, t) else next.get_value name

/-- Evaluation outcomes.  `synFault`/`tyFault` are the interpreter's
`InterpSyntaxError`/`InterpTypeError`; `hostFault` is an uncaught host
exception (e.g. `ZeroDivisionError`); `fuelOut` is the embedding's fuel
artifact only. -/
inductive EvalError where
  | synFault
  | tyFault
  | hostFault
  | fuelOut
deriving DecidableEq, Repr

/-- The expression AST (`stimpl.expression`), as consumed by `evaluate`'s
`match`.  `ren` is the unit literal (`Ren()`). -/
inductive Expr where
  | ren
  | intLit (n : Int)
  | floatLit (q : Rat)
  | strLit (s : String)
  | boolLit (b : Bool)
  | printE (to_print : Expr)
  | sequence (exprs : List Expr)
  | program (exprs : List Expr)
  | var (variable_name : String)
  | assign (variable_name : String) (value : Expr)
  | add (left right : Expr)
  | sub (left right : Expr)
  | mul (left right : Expr)
  | divide (left right : Expr)
  | andE (left right : Expr)
  | orE (left right : Expr)
  | notE (expr : Expr)
  | ifE (condition : Expr) (true_branch : Expr) (false_branch : Expr)
  | ltE (left right : Expr)
  | lteE (left right : Expr)
  | gtE (left right : Expr)
  | gteE (left right : Expr)
  | eqE (left right : Expr)
  | neE (left right : Expr)
  | whileE (condition : Expr) (body : Expr)

/-- An evaluation result triple `(value, type, state)`. -/
abbrev EvalRes := Option Val × Ty × SState

/-- `Add` case body after both operands are evaluated (lines 121–136):
mismatched types fault, then `Integer`/`String`/`FloatingPoint` add, any
other type faults. -/
def addCombine (lv : Option Val) (lt : Ty) (rv : Option Val) (rt : Ty)
    (s : SState) : Except EvalError EvalRes :=
  if lt ≠ rt then .error .tyFault
  else match lt with
    | .Integer =>
        match lv, rv with
        | some (.VInt a), some (.VInt b) => .ok (some (.VInt (a + b)), lt, s)
        | _, _ => .error .hostFault
    | .String =>
        match lv, rv with
        | some (.VStr a), some (.VStr b) => .ok (some (.VStr (a ++ b)), lt, s)
        | _, _ => .error .hostFault
    | .FloatingPoint =>
        match lv, rv with
        | some (.VFloat a), some (.VFloat b) => .ok (some (.VFloat (a + b)), lt, s)
        | _, _ => .error .hostFault
    | _ => .error .tyFault

/-- `Subtract` case body (lines 138–154): `Integer`/`FloatingPoint` only. -/
def subCombine (lv : Option Val) (lt : Ty) (rv : Option Val) (rt : Ty)
    (s : SState) : Except EvalError EvalRes :=
  if lt ≠ rt then .error .tyFault
  else match lt with
    | .Integer =>
        match lv, rv with
        | some (.VInt a), some (.VInt b) => .ok (some (.VInt (a - b)), lt, s)
        | _, _ => .error .hostFault
    | .FloatingPoint =>
        match lv, rv with
        | some (.VFloat a), some (.VFloat b) => .ok (some (.VFloat (a - b)), lt, s)
        | _, _ => .error .hostFault
    | _ => .error .tyFault

/-- `Multiply` case body (lines 156–172). -/
def mulCombine (lv : Option Val) (lt : Ty) (rv : Option Val) (rt : Ty)
    (s : SState) : Except EvalError EvalRes :=
  if lt ≠ rt then .error .tyFault
  else match lt with
    | .Integer =>
        match lv, rv with
        | some (.VInt a), some (.VInt b) => .ok (some (.VInt (a * b)), lt, s)
        | _, _ => .error .hostFault
    | .FloatingPoint =>
        match lv, rv with
        | some (.VFloat a), some (.VFloat b) => .ok (some (.VFloat (a * b)), lt, s)
        | _, _ => .error .hostFault
    | _ => .error .tyFault

/-- `Divide` case body (lines 174–192): `FloatingPoint` uses true division
(`/`), `Integer` uses Python's floor division (`//`, embedded as
`Int.fdiv`).  A zero divisor raises the host's `ZeroDivisionError`, which the
interpreter does not intercept. -/
def divideCombine (lv : Option Val) (lt : Ty) (rv : Option Val) (rt : Ty)
    (s : SState) : Except EvalError EvalRes :=
  if lt ≠ rt then .error .tyFault
  else match lt with
    | .FloatingPoint =>
        match lv, rv with
        | some (.VFloat a), some (.VFloat b) =>
            if b = 0 then .error .hostFault
            else .ok (some (.VFloat (a / b)), lt, s)
        | _, _ => .error .hostFault
    | .Integer =>
        match lv, rv with
        | some (.VInt a), some (.VInt b) =>
            if b = 0 then .error .hostFault
            else .ok (some (.VInt (Int.fdiv a b)), lt, s)
        | _, _ => .error .hostFault
    | _ => .error .tyFault

/-- `And` case body (lines 194–208): both operands must be `Boolean`. -/
def andCombine (lv : Option Val) (lt : Ty) (rv : Option Val) (rt : Ty)
    (s : SState) : Except EvalError EvalRes :=
  if lt ≠ rt then .error .tyFault
  else match lt with
    | .Boolean =>
        match lv, rv with
        | some (.VBool a), some (.VBool b) => .ok (some (.VBool (a && b)), lt, s)
        | _, _ => .error .hostFault
    | _ => .error .tyFault

/-- `Or` case body (lines 210–225). -/
def orCombine (lv : Option Val) (lt : Ty) (rv : Option Val) (rt : Ty)
    (s : SState) : Except EvalError EvalRes :=
  if lt ≠ rt then .error .tyFault
  else match lt with
    | .Boolean =>
        match lv, rv with
        | some (.VBool a), some (.VBool b) => .ok (some (.VBool (a || b)), lt, s)
        | _, _ => .error .hostFault
    | _ => .error .tyFault

/-- `Lt` case body (lines 249–268): natural `<` on `Integer`, `Boolean`
(false < true), `String` (lexicographic), `FloatingPoint`; `Unit` yields
`false`. -/
def ltCombine (lv : Option Val) (lt : Ty) (rv : Option Val) (rt : Ty)
    (s : SState) : Except EvalError EvalRes :=
  if lt ≠ rt then .error .tyFault
  else match lt with
    | .Integer =>
        match lv, rv with
        | some (.VInt a), some (.VInt b) => .ok (some (.VBool (decide (a < b))), .Boolean, s)
        | _, _ => .error .hostFault
    | .Boolean =>
        match lv, rv with
        | some (.VBool a), some (.VBool b) => .ok (some (.VBool (!a && b)), .Boolean, s)
        | _, _ => .error .hostFault
    | .String =>
        match lv, rv with
        | some (.VStr a), some (.VStr b) => .ok (some (.VBool (decide (a < b))), .Boolean, s)
        | _, _ => .error .hostFault
    | .FloatingPoint =>
        match lv, rv with
        | some (.VFloat a), some (.VFloat b) => .ok (some (.VBool (decide (a < b))), .Boolean, s)
        | _, _ => .error .hostFault
    | .Unit => .ok (some (.VBool false), .Boolean, s)

/-- `Lte` case body (lines 270–292).  After the type-equality check the code
returns `true` outright when both values are `None` (the unit value); then
`Integer`/`String`/`FloatingPoint` use `<=`, while `Boolean` uses **value
equality** `==` (not the natural order); `Unit` yields `false` (unreachable,
since unit values are `None`). -/
def lteCombine (lv : Option Val) (lt : Ty) (rv : Option Val) (rt : Ty)
    (s : SState) : Except EvalError EvalRes :=
  if lt ≠ rt then .error .tyFault
  else if lv = none ∧ rv = none then .ok (some (.VBool true), .Boolean, s)
  else match lt with
    | .Integer =>
        match lv, rv with
        | some (.VInt a), some (.VInt b) => .ok (some (.VBool (decide (a ≤ b))), .Boolean, s)
        | _, _ => .error .hostFault
    | .String =>
        match lv, rv with
        | some (.VStr a), some (.VStr b) => .ok (some (.VBool (decide (a ≤ b))), .Boolean, s)
        | _, _ => .error .hostFault
    | .FloatingPoint =>
        match lv, rv with
        | some (.VFloat a), some (.VFloat b) => .ok (some (.VBool (decide (a ≤ b))), .Boolean, s)
        | _, _ => .error .hostFault
    | .Boolean =>
        match lv, rv with
        | some (.VBool a), some (.VBool b) => .ok (some (.VBool (a == b)), .Boolean, s)
        | _, _ => .error .hostFault
    | .Unit => .ok (some (.VBool false), .Boolean, s)

/-- `Gt` case body (lines 294–313): natural `>` on the four ordered types;
`Unit` yields `false`. -/
def gtCombine (lv : Option Val) (lt : Ty) (rv : Option Val) (rt : Ty)
    (s : SState) : Except EvalError EvalRes :=
  if lt ≠ rt then .error .tyFault
  else match lt with
    | .Integer =>
        match lv, rv with
        | some (.VInt a), some (.VInt b) => .ok (some (.VBool (decide (b < a))), .Boolean, s)
        | _, _ => .error .hostFault
    | .Boolean =>
        match lv, rv with
        | some (.VBool a), some (.VBool b) => .ok (some (.VBool (a && !b)), .Boolean, s)
        | _, _ => .error .hostFault
    | .String =>
        match lv, rv with
        | some (.VStr a), some (.VStr b) => .ok (some (.VBool (decide (b < a))), .Boolean, s)
        | _, _ => .error .hostFault
    | .FloatingPoint =>
        match lv, rv with
        | some (.VFloat a), some (.VFloat b) => .ok (some (.VBool (decide (b < a))), .Boolean, s)
        | _, _ => .error .hostFault
    | .Unit => .ok (some (.VBool false), .Boolean, s)

/-- `Gte` case body (lines 316–337): both-`None` returns `true`; otherwise
natural `>=` on `Integer`/`Boolean`/`String`/`FloatingPoint`; `Unit` yields
`false` (unreachable). -/
def gteCombine (lv : Option Val) (lt : Ty) (rv : Option Val) (rt : Ty)
    (s : SState) : Except EvalError EvalRes :=
  if lt ≠ rt then .error .tyFault
  else if lv = none ∧ rv = none then .ok (some (.VBool true), .Boolean, s)
  else match lt with
    | .Integer =>
        match lv, rv with
        | some (.VInt a), some (.VInt b) => .ok (some (.VBool (decide (b ≤ a))), .Boolean, s)
        | _, _ => .error .hostFault
    | .Boolean =>
        match lv, rv with
        | some (.VBool a), some (.VBool b) => .ok (some (.VBool (a || !b)), .Boolean, s)
        | _, _ => .error .hostFault
    | .String =>
        match lv, rv with
        | some (.VStr a), some (.VStr b) => .ok (some (.VBool (decide (b ≤ a))), .Boolean, s)
        | _, _ => .error .hostFault
    | .FloatingPoint =>
        match lv, rv with
        | some (.VFloat a), some (.VFloat b) => .ok (some (.VBool (decide (b ≤ a))), .Boolean, s)
        | _, _ => .error .hostFault
    | .Unit => .ok (some (.VBool false), .Boolean, s)

/-- `Eq` case body (lines 339–360): both-`None` returns `true`; otherwise
`==` on the four payload-carrying types; `Unit` yields `false`
(unreachable). -/
def eqCombine (lv : Option Val) (lt : Ty) (rv : Option Val) (rt : Ty)
    (s : SState) : Except EvalError EvalRes :=
  if lt ≠ rt then .error .tyFault
  else if lv = none ∧ rv = none then .ok (some (.VBool true), .Boolean, s)
  else match lt with
    | .Integer =>
        match lv, rv with
        | some (.VInt a), some (.VInt b) => .ok (some (.VBool (a == b)), .Boolean, s)
        | _, _ => .error .hostFault
    | .Boolean =>
        match lv, rv with
        | some (.VBool a), some (.VBool b) => .ok (some (.VBool (a == b)), .Boolean, s)
        | _, _ => .error .hostFault
    | .String =>
        match lv, rv with
        | some (.VStr a), some (.VStr b) => .ok (some (.VBool (a == b)), .Boolean, s)
        | _, _ => .error .hostFault
    | .FloatingPoint =>
        match lv, rv with
        | some (.VFloat a), some (.VFloat b) => .ok (some (.VBool (a == b)), .Boolean, s)
        | _, _ => .error .hostFault
    | .Unit => .ok (some (.VBool false), .Boolean, s)

/-- `Ne` case body (lines 362–381): no both-`None` shortcut; `!=` on the four
payload-carrying types; `Unit` yields `false`. -/
def neCombine (lv : Option Val) (lt : Ty) (rv : Option Val) (rt : Ty)
    (s : SState) : Except EvalError EvalRes :=
  if lt ≠ rt then .error .tyFault
  else match lt with
    | .Integer =>
        match lv, rv with
        | some (.VInt a), some (.VInt b) => .ok (some (.VBool (a != b)), .Boolean, s)
        | _, _ => .error .hostFault
    | .Boolean =>
        match lv, rv with
        | some (.VBool a), some (.VBool b) => .ok (some (.VBool (a != b)), .Boolean, s)
        | _, _ => .error .hostFault
    | .String =>
        match lv, rv with
        | some (.VStr a), some (.VStr b) => .ok (some (.VBool (a != b)), .Boolean, s)
        | _, _ => .error .hostFault
    | .FloatingPoint =>
        match lv, rv with
        | some (.VFloat a), some (.VFloat b) => .ok (some (.VBool (a != b)), .Boolean, s)
        | _, _ => .error .hostFault
    | .Unit => .ok (some (.VBool false), .Boolean, s)

/-- `evaluate(expression, state)` (lines 60–398), with a fuel parameter
consumed by every recursive call so that the `While` loop (the only
unbounded recursion of the source) is total in the embedding.  Each `match`
arm mirrors the corresponding `case` of the Python `match`:

* each binary construct evaluates its left operand against the incoming
  state and its right operand against the state returned by the left, then
  applies its `*Combine` body;
* `Sequence`/`Program` evaluate the elements in order threading the state;
  the empty list yields `(None, Unit, state)` and the last element's triple
  is the overall result;
* `Assign` evaluates the value first, looks the name up in the resulting
  state and faults when a previous binding has a different type, otherwise
  prepends a new binding;
* `While` re-checks the condition each iteration (type must be `Boolean`),
  returns the condition's own triple when its value is not `True`, and keeps
  only the body's state. -/
def evaluate : Nat → Expr → SState → Except EvalError EvalRes
  | 0, _, _ => .error .fuelOut
  | fuel + 1, expression, s =>
    match expression with
    | .ren => .ok (none, .Unit, s)
    | .intLit n => .ok (some (.VInt n), .Integer, s)
    | .floatLit q => .ok (some (.VFloat q), .FloatingPoint, s)
    | .strLit str => .ok (some (.VStr str), .String, s)
    | .boolLit b => .ok (some (.VBool b), .Boolean, s)
    | .printE to_print =>
        match evaluate fuel to_print s with
        | .error err => .error err
        | .ok r => .ok r
    | .sequence [] => .ok (none, .Unit, s)
    | .sequence (e :: rest) =>
        match evaluate fuel e s with
        | .error err => .error err
        | .ok (v, t, s1) =>
            match rest with
            | [] => .ok (v, t, s1)
            | _ :: _ => evaluate fuel (.sequence rest) s1
    | .program [] => .ok (none, .Unit, s)
    | .program (e :: rest) =>
        match evaluate fuel e s with
        | .error err => .error err
        | .ok (v, t, s1) =>
            match rest with
            | [] => .ok (v, t, s1)
            | _ :: _ => evaluate fuel (.program rest) s1
    | .var name =>
        match s.get_value name with
        | none => .error .synFault
        | some (v, t) => .ok (v, t, s)
    | .assign name valueExpr =>
        match evaluate fuel valueExpr s with
        | .error err => .error err
        | .ok (v, vt, s1) =>
            match s1.get_value name with
            | some (_, et) =>
                if vt ≠ et then .error .tyFault
                else .ok (v, vt, s1.set_value name v vt)
            | none => .ok (v, vt, s1.set_value name v vt)
    | .add l r =>
        match evaluate fuel l s with
        | .error err => .error err
        | .ok (lv, lt, s1) =>
            match evaluate fuel r s1 with
            | .error err => .error err
            | .ok (rv, rt, s2) => addCombine lv lt rv rt s2
    | .sub l r =>
        match evaluate fuel l s with
        | .error err => .error err
        | .ok (lv, lt, s1) =>
            match evaluate fuel r s1 with
            | .error err => .error err
            | .ok (rv, rt, s2) => subCombine lv lt rv rt s2
    | .mul l r =>
        match evaluate fuel l s with
        | .error err => .error err
        | .ok (lv, lt, s1) =>
            match evaluate fuel r s1 with
            | .error err => .error err
            | .ok (rv, rt, s2) => mulCombine lv lt rv rt s2
    | .divide l r =>
        match evaluate fuel l s with
        | .error err => .error err
        | .ok (lv, lt, s1) =>
            match evaluate fuel r s1 with
            | .error err => .error err
            | .ok (rv, rt, s2) => divideCombine lv lt rv rt s2
    | .andE l r =>
        match evaluate fuel l s with
        | .error err => .error err
        | .ok (lv, lt, s1) =>
            match evaluate fuel r s1 with
            | .error err => .error err
            | .ok (rv, rt, s2) => andCombine lv lt rv rt s2
    | .orE l r =>
        match evaluate fuel l s with
        | .error err => .error err
        | .ok (lv, lt, s1) =>
            match evaluate fuel r s1 with
            | .error err => .error err
            | .ok (rv, rt, s2) => orCombine lv lt rv rt s2
    | .notE e =>
        match evaluate fuel e s with
        | .error err => .error err
        | .ok (v, t, s1) =>
            if t ≠ .Boolean then .error .tyFault
            else match v with
              | some (.VBool b) => .ok (some (.VBool (!b)), .Boolean, s1)
              | _ => .error .hostFault
    | .ifE condition tb fb =>
        match evaluate fuel condition s with
        | .error err => .error err
        | .ok (cv, ct, s1) =>
            if ct ≠ .Boolean then .error .tyFault
            else if cv = some (.VBool true) then evaluate fuel tb s1
            else evaluate fuel fb s1
    | .ltE l r =>
        match evaluate fuel l s with
        | .error err => .error err
        | .ok (lv, lt, s1) =>
            match evaluate fuel r s1 with
            | .error err => .error err
            | .ok (rv, rt, s2) => ltCombine lv lt rv rt s2
    | .lteE l r =>
        match evaluate fuel l s with
        | .error err => .error err
        | .ok (lv, lt, s1) =>
            match evaluate fuel r s1 with
            | .error err => .error err
            | .ok (rv, rt, s2) => lteCombine lv lt rv rt s2
    | .gtE l r =>
        match evaluate fuel l s with
        | .error err => .error err
        | .ok (lv, lt, s1) =>
            match evaluate fuel r s1 with
            | .error err => .error err
            | .ok (rv, rt, s2) => gtCombine lv lt rv rt s2
    | .gteE l r =>
        match evaluate fuel l s with
        | .error err => .error err
        | .ok (lv, lt, s1) =>
            match evaluate fuel r s1 with
            | .error err => .error err
            | .ok (rv, rt, s2) => gteCombine lv lt rv rt s2
    | .eqE l r =>
        match evaluate fuel l s with
        | .error err => .error err
        | .ok (lv, lt, s1) =>
            match evaluate fuel r s1 with
            | .error err => .error err
            | .ok (rv, rt, s2) => eqCombine lv lt rv rt s2
    | .neE l r =>
        match evaluate fuel l s with
        | .error err => .error err
        | .ok (lv, lt, s1) =>
            match evaluate fuel r s1 with
            | .error err => .error err
            | .ok (rv, rt, s2) => neCombine lv lt rv rt s2
    | .whileE condition body =>
        match evaluate fuel condition s with
        | .error err => .error err
        | .ok (cv, ct, s1) =>
            if ct ≠ .Boolean then .error .tyFault
            else if cv ≠ some (.VBool true) then .ok (cv, ct, s1)
            else
              match evaluate fuel body s1 with
              | .error err => .error err
              | .ok (_, _, s2) => evaluate fuel (.whileE condition body) s2

/-- `run_stimpl(program)` (lines 401–410): evaluate against the empty
state. -/
def run_stimpl (fuel : Nat) (program : Expr) : Except EvalError EvalRes :=
  evaluate fuel program .emptyState

instance {ε α : Type} [DecidableEq ε] [DecidableEq α] :
    DecidableEq (Except ε α) := fun a b =>
  match a, b with
  | .ok x, .ok y =>
      if h : x = y then .isTrue (by rw [h]) else .isFalse (by simp [h])
  | .error x, .error y =>
      if h : x = y then .isTrue (by rw [h]) else .isFalse (by simp [h])
  | .ok _, .error _ => .isFalse (by simp)
  | .error _, .ok _ => .isFalse (by simp)

example : evaluate 10 (.add (.intLit 1) (.intLit 2)) .emptyState
    = .ok (some (.VInt 3), .Integer, .emptyState) := by decide

example : evaluate 10
      (.sequence [.assign "x" (.intLit 1), .add (.var "x") (.intLit 1)])
      .emptyState
    = .ok (some (.VInt 2), .Integer,
        .state "x" (some (.VInt 1)) .Integer .emptyState) := by decide

/-- C7: the environment is persistent.  `set_value` allocates a new head node
whose tail is the given chain (so the old chain, with all its history, stays
reachable and untouched — in this purely functional embedding no node is ever
mutated, so `get_value env x` is by construction unaffected by building an
extension); `get_value` returns the first (most recent) binding for a name
scanning head-to-tail, and `none` at the terminal empty node. -/
theorem c7_env_persistent (env : SState) (x n : String) (v : Option Val) (t : Ty) :
    env.set_value n v t = SState.state n v t env ∧
    (env.set_value n v t).get_value x
      = (if n = x then some (v, t) else env.get_value x) ∧
    SState.emptyState.get_value x = none := by
  refine ⟨rfl, ?_, rfl⟩
  simp [SState.set_value, SState.get_value]

/-- C6: `variable(name)` returns the value and type of the most recent
binding of `name` (what `get_value` finds first) with the state unchanged,
and raises the interpreter's `InterpSyntaxError` when `name` is unbound. -/
theorem c6_variable_lookup (fuel : Nat) (s : SState) (name : String) :
    (∀ v t, s.get_value name = some (v, t) →
        evaluate (fuel + 1) (.var name) s = .ok (v, t, s)) ∧
    (s.get_value name = none →
        evaluate (fuel + 1) (.var name) s = .error .synFault) := by
  constructor
  · intro v t h
    simp [evaluate, h]
  · intro h
    simp [evaluate, h]

/-- Witness for C6: reading `x` from a state binding it, and from the empty
state. -/
theorem c6_variable_lookup_witness :
    evaluate 1 (.var "x") (.state "x" (some (.VInt 7)) .Integer .emptyState)
      = .ok (some (.VInt 7), .Integer,
          .state "x" (some (.VInt 7)) .Integer .emptyState) ∧
    evaluate 1 (.var "x") .emptyState = .error .synFault :=
  ⟨(c6_variable_lookup 0 (.state "x" (some (.VInt 7)) .Integer .emptyState) "x").1
      (some (.VInt 7)) .Integer rfl,
   (c6_variable_lookup 0 .emptyState "x").2 rfl⟩

/-- C3: `assign(name, valueExpr)` first evaluates `valueExpr` producing
`(v, vt, s1)`; if `name` is bound in `s1` at a different type the assignment
raises `InterpTypeError` (the faulting run carries no state, so no binding is
added); otherwise the result is `(v, vt, s1)` extended at the head with
`(name, v, vt)`.  In particular `sequence[assign(x, 1), assign(x, "a")]`
fails with a type fault. -/
theorem c3_assign :
    (∀ fuel name valueExpr s s1 v vt,
      evaluate fuel valueExpr s = .ok (v, vt, s1) →
      (∀ w et, s1.get_value name = some (w, et) → et ≠ vt →
          evaluate (fuel + 1) (.assign name valueExpr) s = .error .tyFault) ∧
      (∀ w, s1.get_value name = some (w, vt) →
          evaluate (fuel + 1) (.assign name valueExpr) s
            = .ok (v, vt, s1.set_value name v vt)) ∧
      (s1.get_value name = none →
          evaluate (fuel + 1) (.assign name valueExpr) s
            = .ok (v, vt, s1.set_value name v vt))) ∧
    evaluate 10 (.sequence [.assign "x" (.intLit 1), .assign "x" (.strLit "a")])
        .emptyState
      = .error .tyFault := by
  constructor
  · intro fuel name valueExpr s s1 v vt hv
    refine ⟨?_, ?_, ?_⟩
    · intro w et hb hne
      have hne' : vt ≠ et := fun hh => hne hh.symm
      simp [evaluate, hv, hb, hne']
    · intro w hb
      simp [evaluate, hv, hb]
    · intro hb
      simp [evaluate, hv, hb]
  · decide

/-- Witness for C3: assigning `1` to unbound `x` succeeds and prepends the
binding. -/
theorem c3_assign_witness :
    evaluate 2 (.assign "x" (.intLit 1)) .emptyState
      = .ok (some (.VInt 1), .Integer,
          SState.emptyState.set_value "x" (some (.VInt 1)) .Integer) :=
  (c3_assign.1 1 "x" (.intLit 1) .emptyState .emptyState
      (some (.VInt 1)) .Integer rfl).2.2 rfl

/-- C8: `sequence`/`program` on the empty list return `(None, Unit, state)`
unchanged; on a non-empty list the elements are evaluated in order threading
the state, the overall result is the last element's triple, and a failing
element's error propagates immediately with no partial result. -/
theorem c8_sequence :
    (∀ fuel s, evaluate (fuel + 1) (.sequence ([] : List Expr)) s
        = .ok (none, .Unit, s)) ∧
    (∀ fuel s, evaluate (fuel + 1) (.program ([] : List Expr)) s
        = .ok (none, .Unit, s)) ∧
    (∀ fuel s e rest err, evaluate fuel e s = .error err →
        evaluate (fuel + 1) (.sequence (e :: rest)) s = .error err ∧
        evaluate (fuel + 1) (.program (e :: rest)) s = .error err) ∧
    (∀ fuel s e v t s1, evaluate fuel e s = .ok (v, t, s1) →
        evaluate (fuel + 1) (.sequence [e]) s = .ok (v, t, s1) ∧
        evaluate (fuel + 1) (.program [e]) s = .ok (v, t, s1)) ∧
    (∀ fuel s e e2 rest v t s1, evaluate fuel e s = .ok (v, t, s1) →
        evaluate (fuel + 1) (.sequence (e :: e2 :: rest)) s
          = evaluate fuel (.sequence (e2 :: rest)) s1 ∧
        evaluate (fuel + 1) (.program (e :: e2 :: rest)) s
          = evaluate fuel (.program (e2 :: rest)) s1) := by
  refine ⟨?_, ?_, ?_, ?_, ?_⟩
  · intro fuel s
    simp [evaluate]
  · intro fuel s
    simp [evaluate]
  · intro fuel s e rest err h
    constructor <;> simp [evaluate, h]
  · intro fuel s e v t s1 h
    constructor <;> simp [evaluate, h]
  · intro fuel s e e2 rest v t s1 h
    constructor <;> simp [evaluate, h]

/-- Witness for C8: a sequence whose first element faults propagates that
fault; a two-element sequence returns the second element's result. -/
theorem c8_sequence_witness :
    (evaluate 2 (.sequence [.var "x", .ren]) .emptyState = .error .synFault ∧
      evaluate 2 (.program [.var "x", .ren]) .emptyState = .error .synFault) ∧
    (evaluate 2 (.sequence [.ren, .boolLit true]) .emptyState
        = evaluate 1 (.sequence [.boolLit true]) .emptyState ∧
      evaluate 2 (.program [.ren, .boolLit true]) .emptyState
        = evaluate 1 (.program [.boolLit true]) .emptyState) :=
  ⟨c8_sequence.2.2.1 1 .emptyState (.var "x") [.ren] .synFault rfl,
   c8_sequence.2.2.2.2 1 .emptyState .ren (.boolLit true) [] none .Unit
      .emptyState rfl⟩

/-- C4: comparisons on two Unit operands (both values `None`, both types
`Unit`): `eq`, `lte`, `gte` return `true`, while `ne`, `lt`, `gt` return
`false`, all of type `Boolean`, with the state threaded through both
operands; no type error is raised. -/
theorem c4_unit_comparisons (fuel : Nat) (l r : Expr) (s s1 s2 : SState)
    (hl : evaluate fuel l s = .ok (none, .Unit, s1))
    (hr : evaluate fuel r s1 = .ok (none, .Unit, s2)) :
    evaluate (fuel + 1) (.eqE l r) s = .ok (some (.VBool true), .Boolean, s2) ∧
    evaluate (fuel + 1) (.lteE l r) s = .ok (some (.VBool true), .Boolean, s2) ∧
    evaluate (fuel + 1) (.gteE l r) s = .ok (some (.VBool true), .Boolean, s2) ∧
    evaluate (fuel + 1) (.neE l r) s = .ok (some (.VBool false), .Boolean, s2) ∧
    evaluate (fuel + 1) (.ltE l r) s = .ok (some (.VBool false), .Boolean, s2) ∧
    evaluate (fuel + 1) (.gtE l r) s = .ok (some (.VBool false), .Boolean, s2) := by
  refine ⟨?_, ?_, ?_, ?_, ?_, ?_⟩ <;>
    simp [evaluate, hl, hr, eqCombine, lteCombine, gteCombine, neCombine,
      ltCombine, gtCombine]

/-- Witness for C4: the six comparisons on two unit literals. -/
theorem c4_unit_comparisons_witness :
    evaluate 2 (.eqE .ren .ren) .emptyState
        = .ok (some (.VBool true), .Boolean, .emptyState) ∧
    evaluate 2 (.lteE .ren .ren) .emptyState
        = .ok (some (.VBool true), .Boolean, .emptyState) ∧
    evaluate 2 (.gteE .ren .ren) .emptyState
        = .ok (some (.VBool true), .Boolean, .emptyState) ∧
    evaluate 2 (.neE .ren .ren) .emptyState
        = .ok (some (.VBool false), .Boolean, .emptyState) ∧
    evaluate 2 (.ltE .ren .ren) .emptyState
        = .ok (some (.VBool false), .Boolean, .emptyState) ∧
    evaluate 2 (.gtE .ren .ren) .emptyState
        = .ok (some (.VBool false), .Boolean, .emptyState) :=
  c4_unit_comparisons 1 .ren .ren .emptyState .emptyState .emptyState rfl rfl

/-- C2 counterexample: `lte(bool(false), bool(true))` evaluates to `false`,
not the natural-order result `false <= true = true` the claim asserts: the
`Lte` case compares `Boolean` operands with `==` instead of `<=`. -/
theorem c2_counterexample :
    evaluate 2 (.lteE (.boolLit false) (.boolLit true)) .emptyState
        = .ok (some (.VBool false), .Boolean, .emptyState) ∧
    evaluate 2 (.lteE (.boolLit false) (.boolLit true)) .emptyState
        ≠ .ok (some (.VBool true), .Boolean, .emptyState) := by
  constructor
  · decide
  · decide

/-- C2 (amended): on two `Boolean` operands `gte(l, r)` returns the
natural-order comparison `l >= r`, but `lte(l, r)` returns the value
equality `l == r` instead of `l <= r`; both have result type `Boolean`. -/
theorem c2_bool_lte_gte (fuel : Nat) (l r : Expr) (s s1 s2 : SState) (b1 b2 : Bool)
    (hl : evaluate fuel l s = .ok (some (.VBool b1), .Boolean, s1))
    (hr : evaluate fuel r s1 = .ok (some (.VBool b2), .Boolean, s2)) :
    evaluate (fuel + 1) (.lteE l r) s
      = .ok (some (.VBool (b1 == b2)), .Boolean, s2) ∧
    evaluate (fuel + 1) (.gteE l r) s
      = .ok (some (.VBool (b1 || !b2)), .Boolean, s2) := by
  constructor <;> simp [evaluate, hl, hr, lteCombine, gteCombine]

/-- Witness for C2 (amended): `lte(false, true)` yields `false == true =
false`, `gte(false, true)` yields `false >= true = false`, and
`gte(true, false)` yields `true`. -/
theorem c2_bool_lte_gte_witness :
    (evaluate 2 (.lteE (.boolLit false) (.boolLit true)) .emptyState
        = .ok (some (.VBool false), .Boolean, .emptyState) ∧
      evaluate 2 (.gteE (.boolLit false) (.boolLit true)) .emptyState
        = .ok (some (.VBool false), .Boolean, .emptyState)) ∧
    evaluate 2 (.gteE (.boolLit true) (.boolLit false)) .emptyState
        = .ok (some (.VBool true), .Boolean, .emptyState) :=
  ⟨c2_bool_lte_gte 1 (.boolLit false) (.boolLit true)
      .emptyState .emptyState .emptyState false true rfl rfl,
   (c2_bool_lte_gte 1 (.boolLit true) (.boolLit false)
      .emptyState .emptyState .emptyState true false rfl rfl).2⟩

/-- C9: `divide` on two `Integer` operands is Python's floor division `//`
(`Int.fdiv`) with result type `Integer`; on two `FloatingPoint` operands it
is true division with result type `FloatingPoint` (floating-point values are
embedded as exact rationals; the spec's examples are exactly representable).
`divide(int(7), int(2))` yields `(3, Integer)`, `divide(float(7.0),
float(2.0))` yields `(3.5, FloatingPoint)`, and a zero divisor is not
intercepted as a language-level fault: it surfaces as the host's
`ZeroDivisionError` (`hostFault`), which is neither the syntax fault nor the
type fault. -/
theorem c9_divide :
    (∀ fuel l r s s1 s2 (a b : Int),
      evaluate fuel l s = .ok (some (.VInt a), .Integer, s1) →
      evaluate fuel r s1 = .ok (some (.VInt b), .Integer, s2) → b ≠ 0 →
      evaluate (fuel + 1) (.divide l r) s
        = .ok (some (.VInt (Int.fdiv a b)), .Integer, s2)) ∧
    (∀ fuel l r s s1 s2 (a b : Rat),
      evaluate fuel l s = .ok (some (.VFloat a), .FloatingPoint, s1) →
      evaluate fuel r s1 = .ok (some (.VFloat b), .FloatingPoint, s2) → b ≠ 0 →
      evaluate (fuel + 1) (.divide l r) s
        = .ok (some (.VFloat (a / b)), .FloatingPoint, s2)) ∧
    evaluate 2 (.divide (.intLit 7) (.intLit 2)) .emptyState
      = .ok (some (.VInt 3), .Integer, .emptyState) ∧
    evaluate 2 (.divide (.floatLit 7) (.floatLit 2)) .emptyState
      = .ok (some (.VFloat ((7 : Rat) / 2)), .FloatingPoint, .emptyState) ∧
    evaluate 2 (.divide (.intLit 1) (.intLit 0)) .emptyState
      = .error .hostFault ∧
    evaluate 2 (.divide (.floatLit 1) (.floatLit 0)) .emptyState
      = .error .hostFault ∧
    (EvalError.hostFault ≠ .synFault ∧ EvalError.hostFault ≠ .tyFault) := by
  refine ⟨?_, ?_, by decide, by norm_num [evaluate, divideCombine], by decide,
    by norm_num [evaluate, divideCombine], by decide, by decide⟩
  · intro fuel l r s s1 s2 a b hl hr hb
    simp [evaluate, hl, hr, divideCombine, hb]
  · intro fuel l r s s1 s2 a b hl hr hb
    simp [evaluate, hl, hr, divideCombine, hb]

/-- Witness for C9: the two general division parts applied at `7 / 2`. -/
theorem c9_divide_witness :
    evaluate 2 (.divide (.intLit 7) (.intLit 2)) .emptyState
      = .ok (some (.VInt (Int.fdiv 7 2)), .Integer, .emptyState) ∧
    evaluate 2 (.divide (.floatLit 7) (.floatLit 2)) .emptyState
      = .ok (some (.VFloat ((7 : Rat) / 2)), .FloatingPoint, .emptyState) :=
  ⟨c9_divide.1 1 (.intLit 7) (.intLit 2) .emptyState .emptyState .emptyState
      7 2 rfl rfl (by decide),
   c9_divide.2.1 1 (.floatLit 7) (.floatLit 2) .emptyState .emptyState
      .emptyState 7 2 rfl rfl (by norm_num)⟩

/-- C10: `and`/`or` are not short-circuiting.  With a `Boolean` left operand
of either value, the right operand is always evaluated against the left's
resulting state: a failing right operand propagates its error (even when the
left value already determines the logical result), a non-`Boolean` right
operand raises a type fault, and a `Boolean` right operand's state — with
any assignments it performed — is the state of the overall result. -/
theorem c10_no_short_circuit :
    (∀ fuel l r s s1 (b1 : Bool) err,
      evaluate fuel l s = .ok (some (.VBool b1), .Boolean, s1) →
      evaluate fuel r s1 = .error err →
      evaluate (fuel + 1) (.andE l r) s = .error err ∧
      evaluate (fuel + 1) (.orE l r) s = .error err) ∧
    (∀ fuel l r s s1 s2 (b1 : Bool) rv rt,
      evaluate fuel l s = .ok (some (.VBool b1), .Boolean, s1) →
      evaluate fuel r s1 = .ok (rv, rt, s2) → rt ≠ .Boolean →
      evaluate (fuel + 1) (.andE l r) s = .error .tyFault ∧
      evaluate (fuel + 1) (.orE l r) s = .error .tyFault) ∧
    (∀ fuel l r s s1 s2 (b1 b2 : Bool),
      evaluate fuel l s = .ok (some (.VBool b1), .Boolean, s1) →
      evaluate fuel r s1 = .ok (some (.VBool b2), .Boolean, s2) →
      evaluate (fuel + 1) (.andE l r) s
        = .ok (some (.VBool (b1 && b2)), .Boolean, s2) ∧
      evaluate (fuel + 1) (.orE l r) s
        = .ok (some (.VBool (b1 || b2)), .Boolean, s2)) := by
  refine ⟨?_, ?_, ?_⟩
  · intro fuel l r s s1 b1 err hl hr
    constructor <;> simp [evaluate, hl, hr]
  · intro fuel l r s s1 s2 b1 rv rt hl hr hne
    have hne' : Ty.Boolean ≠ rt := fun hh => hne hh.symm
    constructor <;> simp [evaluate, hl, hr, andCombine, orCombine, hne']
  · intro fuel l r s s1 s2 b1 b2 hl hr
    constructor <;> simp [evaluate, hl, hr, andCombine, orCombine]

/-- Witness for C10: `and(false, sequence[assign(x, 1), true])` evaluates
the right operand although the left already determines the result — the
assignment to `x` is visible in the final state — and
`and(false, int(1))` faults although the left operand is already `false`. -/
theorem c10_no_short_circuit_witness :
    evaluate 4 (.andE (.boolLit false)
        (.sequence [.assign "x" (.intLit 1), .boolLit true])) .emptyState
      = .ok (some (.VBool false), .Boolean,
          .state "x" (some (.VInt 1)) .Integer .emptyState) ∧
    evaluate 4 (.andE (.boolLit false) (.intLit 1)) .emptyState
      = .error .tyFault :=
  ⟨(c10_no_short_circuit.2.2 3 (.boolLit false)
      (.sequence [.assign "x" (.intLit 1), .boolLit true])
      .emptyState .emptyState
      (.state "x" (some (.VInt 1)) .Integer .emptyState) false true
      rfl rfl).1,
   (c10_no_short_circuit.2.1 3 (.boolLit false) (.intLit 1)
      .emptyState .emptyState .emptyState false (some (.VInt 1)) .Integer
      rfl rfl (by decide)).1⟩

/-- The spec's loop example: `sequence[assign(i, 0), while(lt(variable(i),
int(5)), assign(i, add(variable(i), int(1))))]`. -/
def loopProg : Expr :=
  .sequence [.assign "i" (.intLit 0),
    .whileE (.ltE (.var "i") (.intLit 5))
      (.assign "i" (.add (.var "i") (.intLit 1)))]

/-- C5: `while(c, body)` evaluates the condition against the current state
each iteration; a non-`Boolean` condition raises a type fault; a condition
whose value is not `True` terminates the loop returning the condition's own
triple; a `True` condition evaluates the body and keeps only its state (the
body's value and type do not influence the continuation).  The spec's loop
example terminates with result `(False, Boolean)` and `i` bound to `5` at
type `Integer`. -/
theorem c5_while :
    (∀ fuel c b s s1 v t, evaluate fuel c s = .ok (v, t, s1) → t ≠ .Boolean →
        evaluate (fuel + 1) (.whileE c b) s = .error .tyFault) ∧
    (∀ fuel c b s s1 v, evaluate fuel c s = .ok (v, .Boolean, s1) →
        v ≠ some (.VBool true) →
        evaluate (fuel + 1) (.whileE c b) s = .ok (v, .Boolean, s1)) ∧
    (∀ fuel c b s s1 s2 bv bt,
        evaluate fuel c s = .ok (some (.VBool true), .Boolean, s1) →
        evaluate fuel b s1 = .ok (bv, bt, s2) →
        evaluate (fuel + 1) (.whileE c b) s = evaluate fuel (.whileE c b) s2) ∧
    (evaluate 100 loopProg .emptyState).map
        (fun rr => (rr.1, rr.2.1, rr.2.2.get_value "i"))
      = .ok (some (.VBool false), .Boolean, some (some (.VInt 5), .Integer)) := by
  refine ⟨?_, ?_, ?_, by decide⟩
  · intro fuel c b s s1 v t hc ht
    simp [evaluate, hc, ht]
  · intro fuel c b s s1 v hc hv
    simp [evaluate, hc, hv]
  · intro fuel c b s s1 s2 bv bt hc hb
    simp [evaluate, hc, hb]

/-- Witness for C5: a loop whose condition is immediately `false` returns
the condition's triple; a non-`Boolean` condition faults; one unrolling of a
`true` condition continues from the body's state. -/
theorem c5_while_witness :
    evaluate 2 (.whileE (.boolLit false) .ren) .emptyState
      = .ok (some (.VBool false), .Boolean, .emptyState) ∧
    evaluate 2 (.whileE (.intLit 0) .ren) .emptyState = .error .tyFault ∧
    evaluate 3 (.whileE (.boolLit true) (.assign "x" (.intLit 1))) .emptyState
      = evaluate 2 (.whileE (.boolLit true) (.assign "x" (.intLit 1)))
          (.state "x" (some (.VInt 1)) .Integer .emptyState) :=
  ⟨c5_while.2.1 1 (.boolLit false) .ren .emptyState .emptyState
      (some (.VBool false)) rfl (by decide),
   c5_while.1 1 (.intLit 0) .ren .emptyState .emptyState
      (some (.VInt 0)) .Integer rfl (by decide),
   c5_while.2.2.1 2 (.boolLit true) (.assign "x" (.intLit 1))
      .emptyState .emptyState (.state "x" (some (.VInt 1)) .Integer .emptyState)
      (some (.VInt 1)) .Integer rfl rfl⟩

/-- The continuation a binary construct applies after its left operand: the
right operand is evaluated against the state `s1` the left operand returned,
and the construct's combining body consumes the two results. -/
def binRest
    (combine : Option Val → Ty → Option Val → Ty → SState → Except EvalError EvalRes)
    (fuel : Nat) (lv : Option Val) (lt : Ty) (r : Expr) (s1 : SState) :
    Except EvalError EvalRes :=
  match evaluate fuel r s1 with
  | .error err => .error err
  | .ok (rv, rt, s2) => combine lv lt rv rt s2

/-- The spec's assignment-visibility example: `sequence[assign(x, 1),
add(variable(x), 1)]`. -/
def visProg : Expr :=
  .sequence [.assign "x" (.intLit 1), .add (.var "x") (.intLit 1)]

/-- C1 counterexample: the example program does *not* yield `(2, Integer)`
from *any* environment — from a state binding `x` at type `String`, the
first assignment raises a type fault. -/
theorem c1_counterexample :
    evaluate 10 visProg (.state "x" (some (.VStr "a")) .String .emptyState)
      = .error .tyFault := by decide

/-- C1 (amended): every binary construct (arithmetic, boolean, comparison)
evaluates its left operand against the incoming state and its right operand
against the state the left operand returned, and sequences/programs thread
the state from each element into the next, so assignments made in an earlier
subexpression are visible in later ones.  The example
`sequence[assign(x, 1), add(variable(x), 1)]` yields `(2, Integer)` from any
environment in which `x` is unbound or bound at type `Integer` (from an
environment binding `x` at another type, the assignment raises a type
fault — the counterexample to the unrestricted claim). -/
theorem c1_threading :
    (∀ fuel l r s lv lt s1, evaluate fuel l s = .ok (lv, lt, s1) →
      evaluate (fuel + 1) (.add l r) s = binRest addCombine fuel lv lt r s1 ∧
      evaluate (fuel + 1) (.sub l r) s = binRest subCombine fuel lv lt r s1 ∧
      evaluate (fuel + 1) (.mul l r) s = binRest mulCombine fuel lv lt r s1 ∧
      evaluate (fuel + 1) (.divide l r) s = binRest divideCombine fuel lv lt r s1 ∧
      evaluate (fuel + 1) (.andE l r) s = binRest andCombine fuel lv lt r s1 ∧
      evaluate (fuel + 1) (.orE l r) s = binRest orCombine fuel lv lt r s1 ∧
      evaluate (fuel + 1) (.ltE l r) s = binRest ltCombine fuel lv lt r s1 ∧
      evaluate (fuel + 1) (.lteE l r) s = binRest lteCombine fuel lv lt r s1 ∧
      evaluate (fuel + 1) (.gtE l r) s = binRest gtCombine fuel lv lt r s1 ∧
      evaluate (fuel + 1) (.gteE l r) s = binRest gteCombine fuel lv lt r s1 ∧
      evaluate (fuel + 1) (.eqE l r) s = binRest eqCombine fuel lv lt r s1 ∧
      evaluate (fuel + 1) (.neE l r) s = binRest neCombine fuel lv lt r s1) ∧
    (∀ fuel l r rest s lv lt s1, evaluate fuel l s = .ok (lv, lt, s1) →
      evaluate (fuel + 1) (.sequence (l :: r :: rest)) s
        = evaluate fuel (.sequence (r :: rest)) s1 ∧
      evaluate (fuel + 1) (.program (l :: r :: rest)) s
        = evaluate fuel (.program (r :: rest)) s1) ∧
    (∀ fuel s, (s.get_value "x" = none ∨
        ∃ v0, s.get_value "x" = some (v0, .Integer)) →
      evaluate (fuel + 4) visProg s
        = .ok (some (.VInt 2), .Integer,
            s.set_value "x" (some (.VInt 1)) .Integer)) := by
  refine ⟨?_, ?_, ?_⟩
  · intro fuel l r s lv lt s1 hl
    refine ⟨?_, ?_, ?_, ?_, ?_, ?_, ?_, ?_, ?_, ?_, ?_, ?_⟩ <;>
      simp [evaluate, hl, binRest]
  · intro fuel l r rest s lv lt s1 hl
    constructor <;> simp [evaluate, hl]
  · intro fuel s h
    rcases h with h | ⟨v0, h⟩ <;>
      simp [visProg, evaluate, h, SState.set_value, SState.get_value, addCombine]

/-- Witness for C1 (amended): the example program from the empty environment,
and the threading of an assignment's state into an `add`'s right operand. -/
theorem c1_threading_witness :
    evaluate 4 visProg .emptyState
      = .ok (some (.VInt 2), .Integer,
          SState.emptyState.set_value "x" (some (.VInt 1)) .Integer) ∧
    evaluate 3 (.add (.assign "x" (.intLit 5)) (.var "x")) .emptyState
      = binRest addCombine 2 (some (.VInt 5)) .Integer (.var "x")
          (.state "x" (some (.VInt 5)) .Integer .emptyState) :=
  ⟨c1_threading.2.2 0 .emptyState (Or.inl rfl),
   (c1_threading.1 2 (.assign "x" (.intLit 5)) (.var "x") .emptyState
      (some (.VInt 5)) .Integer
      (.state "x" (some (.VInt 5)) .Integer .emptyState) rfl).1⟩

end Stimpl
